import Mathlib

/-!
Shallow embedding of the enrichment pipeline in `src/main.py`
(repository paul-holley/spotify-divide).

The embedded slice is the rate-limited enrichment-and-cache pipeline:

* `get_audio_features_by_spotify_id` (src/main.py lines 119-150): the
  quota-checked metrics fetch,
* `normalize_features` (src/main.py lines 152-172): the raw-payload
  normalizer,
* the top-level track loop (src/main.py lines 239-272): cache check,
  fetch, normalize, persist.

Modelling conventions:

* Parsed JSON values (Python objects) are the inductive `PyVal`; a JSON
  object is an association list of string keys.  `json.dumps` /
  `json.loads` round-trips are abstracted away: the blob store holds
  structured values directly.
* Python exceptions become `Except PyErr`; an exception that no source
  `except` clause catches surfaces as an `Option PyErr` component of the
  run result (side effects performed before the raise are kept, matching
  the real blob store).
* Wall-clock month and the HTTP layer are environment parameters: the
  current month string is fixed for a run, and the outcome of the single
  HTTP GET for a track id is given by a function from track id to
  `HttpOutcome`.
* `response.raise_for_status()` raises exactly for status codes in
  [400, 600), per the requests library it calls into; every
  `requests.exceptions.RequestException` (connection error, timeout,
  HTTPError) is caught by the one `except` clause in the source.
* Machine-independent Python integers are `Int` / `Nat` directly.
-/

/-- Parsed JSON / Python values, as produced by `response.json()`. -/
inductive PyVal where
  | null : PyVal
  | bool (b : Bool) : PyVal
  | int (n : Int) : PyVal
  | str (s : String) : PyVal
  | list (xs : List PyVal) : PyVal
  | dict (kvs : List (String × PyVal)) : PyVal

/-- Python exceptions that the embedded slice can raise. -/
inductive PyErr where
  | keyError (k : String) : PyErr
  | valueError : PyErr
  | typeError : PyErr
  | attributeError : PyErr
deriving Repr, DecidableEq

/-- Python truthiness (`if analysis:` at src/main.py line 259). -/
def PyVal.isTruthy : PyVal → Bool
  | .null => false
  | .bool b => b
  | .int n => n != 0
  | .str s => s.length != 0
  | .list xs => !xs.isEmpty
  | .dict kvs => !kvs.isEmpty

/-- Python subscript `obj[k]` with a string key: a lookup in a dict
(`KeyError` when the key is absent), a `TypeError` on any other value. -/
def PyVal.getItem : PyVal → String → Except PyErr PyVal
  | .dict kvs, k =>
    match kvs.find? (fun kv => kv.1 == k) with
    | some kv => .ok kv.2
    | none => .error (.keyError k)
  | _, _ => .error .typeError

/-- A Python value on which a string method is called must be a string
(`AttributeError` otherwise). -/
def PyVal.asStr : PyVal → Except PyErr String
  | .str s => .ok s
  | _ => .error .attributeError

/-- Python `str.split(sep)` for a one-character separator (the source
only splits on `":"`): split at every occurrence, keeping empty pieces;
the result is always nonempty. -/
def pySplitChar (sep : Char) : List Char → List (List Char)
  | [] => [[]]
  | c :: rest =>
    match pySplitChar sep rest with
    | h :: t => if c == sep then [] :: h :: t else (c :: h) :: t
    | [] => [[]]

/-- `s.split(sep)` returning strings. -/
def pySplit (s : String) (sep : Char) : List String :=
  (pySplitChar sep s.data).map (fun cs => String.mk cs)

/-- One pass of Python `str.replace(pat, rep)` for nonempty `pat`:
replace non-overlapping occurrences left to right.  The `fuel`
argument (instantiated with the character count) only bounds the
recursion; each step consumes at least one character. -/
def pyReplaceAux (pat rep : List Char) : Nat → List Char → List Char
  | _, [] => []
  | 0, cs => cs
  | fuel + 1, c :: rest =>
    if pat.isPrefixOf (c :: rest) then
      rep ++ pyReplaceAux pat rep fuel ((c :: rest).drop pat.length)
    else
      c :: pyReplaceAux pat rep fuel rest

/-- Python `s.replace(pat, rep)` for nonempty `pat`. -/
def pyReplace (s pat rep : String) : String :=
  String.mk (pyReplaceAux pat.data rep.data s.data.length s.data)

/-- Python `str.strip()` of surrounding whitespace, as `int()` applies
it to its argument. -/
def pyStrip (cs : List Char) : List Char :=
  ((cs.dropWhile Char.isWhitespace).reverse.dropWhile Char.isWhitespace).reverse

/-- Digit run accumulator for `int()`: decimal digits in which a single
underscore may stand between two digits (CPython grammar). -/
def pyDigitsAux : Nat → List Char → Option Nat
  | acc, [] => some acc
  | acc, '_' :: c :: rest =>
    if c.isDigit then pyDigitsAux (acc * 10 + (c.toNat - 48)) rest else none
  | acc, c :: rest =>
    if c.isDigit then pyDigitsAux (acc * 10 + (c.toNat - 48)) rest else none

/-- Nonempty digit run for `int()`: must start with a digit. -/
def pyDigits : List Char → Option Nat
  | [] => none
  | c :: rest => if c.isDigit then pyDigitsAux (c.toNat - 48) rest else none

/-- Python `int(s)` on a string: strip surrounding whitespace, optional
sign, then a nonempty digit run (underscores allowed between digits);
`none` models the `ValueError` raised otherwise. -/
def pyInt (s : String) : Option Int :=
  match pyStrip s.data with
  | '-' :: rest => (pyDigits rest).map (fun n => -(n : Int))
  | '+' :: rest => (pyDigits rest).map (fun n => (n : Int))
  | cs => (pyDigits cs).map (fun n => (n : Int))

/-- src/main.py lines 153-154:
`minutes, seconds = api_data["duration"].split(":")` followed by
`duration_seconds = int(minutes) * 60 + int(seconds)`.  The
two-variable unpacking raises `ValueError` unless the split yields
exactly two parts; a non-parseable part raises `ValueError` from
`int()`. -/
def durationSecondsOf (api_data : PyVal) : Except PyErr Int :=
  match api_data.getItem "duration" with
  | .error e => .error e
  | .ok durV =>
    match durV.asStr with
    | .error e => .error e
    | .ok durS =>
      match pySplit durS ':' with
      | [minutes, seconds] =>
        match pyInt minutes, pyInt seconds with
        | some minI, some secI => .ok (minI * 60 + secI)
        | _, _ => .error .valueError
      | _ => .error .valueError

/-- src/main.py line 155:
`loudness_db = int(api_data["loudness"].replace(" dB", ""))`.
`replace` removes every occurrence of `" dB"`, not just a suffix. -/
def loudnessDbOf (api_data : PyVal) : Except PyErr Int :=
  match api_data.getItem "loudness" with
  | .error e => .error e
  | .ok loudV =>
    match loudV.asStr with
    | .error e => .error e
    | .ok loudS =>
      match pyInt (pyReplace loudS " dB" "") with
      | some n => .ok n
      | none => .error .valueError

/-- `normalize_features` (src/main.py lines 152-172): the duration and
loudness parses in statement order, then the returned dict literal,
whose twelve remaining key lookups raise `KeyError` for the first
absent key (in literal order). -/
def normalize_features (api_data : PyVal) : Except PyErr PyVal :=
  match durationSecondsOf api_data with
  | .error e => .error e
  | .ok duration_seconds =>
    match loudnessDbOf api_data with
    | .error e => .error e
    | .ok loudness_db =>
      match api_data.getItem "key", api_data.getItem "mode",
            api_data.getItem "camelot", api_data.getItem "tempo",
            api_data.getItem "popularity", api_data.getItem "energy",
            api_data.getItem "danceability", api_data.getItem "happiness",
            api_data.getItem "acousticness",
            api_data.getItem "instrumentalness",
            api_data.getItem "liveness", api_data.getItem "speechiness" with
      | .ok vKey, .ok vMode, .ok vCamelot, .ok vTempo, .ok vPopularity,
        .ok vEnergy, .ok vDanceability, .ok vHappiness, .ok vAcousticness,
        .ok vInstrumentalness, .ok vLiveness, .ok vSpeechiness =>
        .ok (.dict
          [ ("key", vKey)
          , ("mode", vMode)
          , ("camelot", vCamelot)
          , ("tempo", vTempo)
          , ("duration_seconds", .int duration_seconds)
          , ("popularity", vPopularity)
          , ("energy", vEnergy)
          , ("danceability", vDanceability)
          , ("happiness", vHappiness)
          , ("acousticness", vAcousticness)
          , ("instrumentalness", vInstrumentalness)
          , ("liveness", vLiveness)
          , ("speechiness", vSpeechiness)
          , ("loudness_db", .int loudness_db)
          ])
      | .error e, _, _, _, _, _, _, _, _, _, _, _ => .error e
      | _, .error e, _, _, _, _, _, _, _, _, _, _ => .error e
      | _, _, .error e, _, _, _, _, _, _, _, _, _ => .error e
      | _, _, _, .error e, _, _, _, _, _, _, _, _ => .error e
      | _, _, _, _, .error e, _, _, _, _, _, _, _ => .error e
      | _, _, _, _, _, .error e, _, _, _, _, _, _ => .error e
      | _, _, _, _, _, _, .error e, _, _, _, _, _ => .error e
      | _, _, _, _, _, _, _, .error e, _, _, _, _ => .error e
      | _, _, _, _, _, _, _, _, .error e, _, _, _ => .error e
      | _, _, _, _, _, _, _, _, _, .error e, _, _ => .error e
      | _, _, _, _, _, _, _, _, _, _, .error e, _ => .error e
      | _, _, _, _, _, _, _, _, _, _, _, .error e => .error e

/-- The monthly quota cap (src/main.py line 16). -/
def MONTHLY_LIMIT : Nat := 5000

/-- The singleton usage blob content `api_usage/rapidapi.json`:
`{"month": "YYYY-MM", "calls_made": n}`. -/
structure UsageRecord where
  month : String
  calls_made : Nat
deriving Repr, DecidableEq

/-- Transport-level outcome of the one `requests.get` a fetch issues:
either no HTTP response at all (connection error / timeout), or a
response with a status code and a parsed JSON body. -/
inductive HttpOutcome where
  | connError : HttpOutcome
  | timeout : HttpOutcome
  | response (status : Nat) (body : PyVal) : HttpOutcome

/-- The cause inside the caught `requests.exceptions.RequestException`
(src/main.py line 148). -/
inductive ReqException where
  | connectionError : ReqException
  | timeout : ReqException
  | httpError (status : Nat) : ReqException
deriving Repr, DecidableEq

/-- `response.raise_for_status()` raises `HTTPError` exactly for status
codes in [400, 600) (requests library semantics). -/
def raisesForStatus (status : Nat) : Bool :=
  400 ≤ status && status < 600

/-- User-visible messages the pipeline emits through streamlit calls. -/
inductive Msg where
  | trackHeader (name artist : String) : Msg
  | alreadyProcessed : Msg
  | analyzing : Msg
  | limitReached : Msg
  | rapidApiError (track_id : String) (cause : ReqException) : Msg
deriving Repr, DecidableEq

/-- The blob store state the pipeline touches: the singleton usage blob
(created at module init if absent, so always present here) and the
track blobs keyed by their blob names. -/
structure Store where
  usage : UsageRecord
  tracks : List (String × PyVal)

/-- `blob.exists()` for a track blob. -/
def blobExists (store : Store) (name : String) : Bool :=
  (store.tracks.find? (fun kv => kv.1 == name)).isSome

/-- `blob.upload_from_string` for a track blob: unconditional overwrite. -/
def uploadTrack (store : Store) (name : String) (v : PyVal) : Store :=
  { store with
    tracks := (name, v) :: store.tracks.filter (fun kv => kv.1 != name) }

/-- Observable result of one call to
`get_audio_features_by_spotify_id`: the Python return value, the blob
store afterwards, whether an HTTP GET was issued, how many times the
usage blob was uploaded, and the error messages displayed. -/
structure FetchResult where
  ret : Option PyVal
  store : Store
  requested : Bool
  usageWrites : Nat
  msgs : List Msg

/-- src/main.py lines 121-126: the usage record actually used by a
fetch — reset in memory to `{month: current_month, calls_made: 0}`
when the stored month differs from the current month, with no write. -/
def effectiveUsage (currentMonth : String) (u : UsageRecord) : UsageRecord :=
  if u.month != currentMonth then
    { month := currentMonth, calls_made := 0 }
  else u

/-- `get_audio_features_by_spotify_id` (src/main.py lines 119-150),
translated statement by statement: load the usage blob; reset the
record in memory when its month differs from the current month
(`effectiveUsage`); if `calls_made >= MONTHLY_LIMIT`, show the limit
error and return `None`; otherwise issue the GET; on any
`RequestException` (connection error, timeout, or the `HTTPError` from
`raise_for_status`) show the error and return `None`; on success
increment `calls_made`, upload the usage blob once, and return the
parsed body. -/
def get_audio_features_by_spotify_id (currentMonth : String)
    (http : HttpOutcome) (track_id : String) (store : Store) : FetchResult :=
  let usage_data := effectiveUsage currentMonth store.usage
  if usage_data.calls_made ≥ MONTHLY_LIMIT then
    { ret := none, store := store, requested := false, usageWrites := 0,
      msgs := [.limitReached] }
  else
    match http with
    | .connError =>
      { ret := none, store := store, requested := true, usageWrites := 0,
        msgs := [.rapidApiError track_id .connectionError] }
    | .timeout =>
      { ret := none, store := store, requested := true, usageWrites := 0,
        msgs := [.rapidApiError track_id .timeout] }
    | .response status body =>
      if raisesForStatus status then
        { ret := none, store := store, requested := true, usageWrites := 0,
          msgs := [.rapidApiError track_id (.httpError status)] }
      else
        let usage2 : UsageRecord :=
          { month := usage_data.month, calls_made := usage_data.calls_made + 1 }
        { ret := some body, store := { store with usage := usage2 },
          requested := true, usageWrites := 1, msgs := [] }

/-- A caller-supplied track descriptor: the fields of the spotipy track
object the loop reads (`track["uri"]`, `track["name"]`,
`track["artists"][0]["name"]`). -/
structure Track where
  uri : String
  name : String
  artist : String
deriving Repr, DecidableEq

/-- `track_id = track["uri"].split(":")[-1]` (src/main.py line 246). -/
def trackIdOf (t : Track) : String :=
  (pySplit t.uri ':').getLastD ""

/-- The deterministic cache key (src/main.py line 247). -/
def blobNameOf (t : Track) : String :=
  "tracks/" ++ trackIdOf t ++ ".json"

/-- The TrackRecord payload assembled at src/main.py lines 261-269. -/
def trackRecordPayload (t : Track) (track_id : String)
    (features : PyVal) : PyVal :=
  .dict
    [ ("track_id", .str track_id)
    , ("name", .str t.name)
    , ("artist", .str t.artist)
    , ("uri", .str t.uri)
    , ("audio_features", features)
    , ("source", .str "rapidapi")
    , ("analysis_version", .str "v1")
    ]

/-- Per-track observables of one iteration of the loop. -/
structure StepInfo where
  track_id : String
  msgs : List Msg
  fetchCalled : Bool
  normalizeCalled : Bool
  wroteTrack : Bool
  usageWrites : Nat
deriving Repr, DecidableEq

/-- One iteration of the track loop (src/main.py lines 241-270): show
the track header; if the track blob exists, show the skip message and
continue; otherwise fetch; when the fetch result is truthy, normalize
and, on success, upload the TrackRecord.  A `PyErr` in the third
component is an exception no source handler catches (it aborts the
run); store changes made before the raise are kept. -/
def processTrack (currentMonth : String) (http : String → HttpOutcome)
    (t : Track) (store : Store) : Store × StepInfo × Option PyErr :=
  let track_id := trackIdOf t
  let blob_name := blobNameOf t
  let hdr := Msg.trackHeader t.name t.artist
  if blobExists store blob_name then
    (store,
     { track_id := track_id, msgs := [hdr, .alreadyProcessed],
       fetchCalled := false, normalizeCalled := false,
       wroteTrack := false, usageWrites := 0 }, none)
  else
    let fr := get_audio_features_by_spotify_id currentMonth
      (http track_id) track_id store
    match fr.ret with
    | none =>
      (fr.store,
       { track_id := track_id, msgs := [hdr, .analyzing] ++ fr.msgs,
         fetchCalled := true, normalizeCalled := false,
         wroteTrack := false, usageWrites := fr.usageWrites }, none)
    | some analysis =>
      if analysis.isTruthy then
        match normalize_features analysis with
        | .error e =>
          (fr.store,
           { track_id := track_id, msgs := [hdr, .analyzing] ++ fr.msgs,
             fetchCalled := true, normalizeCalled := true,
             wroteTrack := false, usageWrites := fr.usageWrites }, some e)
        | .ok features =>
          (uploadTrack fr.store blob_name
             (trackRecordPayload t track_id features),
           { track_id := track_id, msgs := [hdr, .analyzing] ++ fr.msgs,
             fetchCalled := true, normalizeCalled := true,
             wroteTrack := true, usageWrites := fr.usageWrites }, none)
      else
        (fr.store,
         { track_id := track_id, msgs := [hdr, .analyzing] ++ fr.msgs,
           fetchCalled := true, normalizeCalled := false,
           wroteTrack := false, usageWrites := fr.usageWrites }, none)

/-- The whole track loop over the supplied list, in list order.  An
uncaught exception stops the loop at the failing track: later tracks
are not processed and produce no `StepInfo`. -/
def process (currentMonth : String) (http : String → HttpOutcome) :
    List Track → Store → Store × List StepInfo × Option PyErr
  | [], store => (store, [], none)
  | t :: ts, store =>
    match processTrack currentMonth http t store with
    | (s1, info, some e) => (s1, [info], some e)
    | (s1, info, none) =>
      match process currentMonth http ts s1 with
      | (s2, infos, err) => (s2, info :: infos, err)

/-- The `StepInfo` of a cache hit. -/
def alreadyCachedInfo (t : Track) : StepInfo :=
  { track_id := trackIdOf t,
    msgs := [Msg.trackHeader t.name t.artist, Msg.alreadyProcessed],
    fetchCalled := false, normalizeCalled := false,
    wroteTrack := false, usageWrites := 0 }

/-- The keys of the dict `normalize_features` returns, in literal
order. -/
def canonicalFeatureKeys : List String :=
  [ "key", "mode", "camelot", "tempo", "duration_seconds", "popularity"
  , "energy", "danceability", "happiness", "acousticness"
  , "instrumentalness", "liveness", "speechiness", "loudness_db" ]

/-- The keys of a dict value (empty on non-dicts). -/
def pyDictKeys : PyVal → List String
  | .dict kvs => kvs.map Prod.fst
  | _ => []

/-- A fully populated raw payload with `duration="3:45"`,
`loudness="-7 dB"`, and one extra non-canonical field. -/
def sampleRaw : PyVal := .dict
  [ ("key", .int 5)
  , ("mode", .str "Minor")
  , ("camelot", .str "5A")
  , ("tempo", .int 120)
  , ("duration", .str "3:45")
  , ("popularity", .int 52)
  , ("energy", .int 81)
  , ("danceability", .int 70)
  , ("happiness", .int 60)
  , ("acousticness", .int 10)
  , ("instrumentalness", .int 0)
  , ("liveness", .int 15)
  , ("speechiness", .int 4)
  , ("loudness", .str "-7 dB")
  , ("extra_field", .str "junk")
  ]

/-- The normalized record for `sampleRaw`. -/
def sampleNormalized : PyVal := .dict
  [ ("key", .int 5)
  , ("mode", .str "Minor")
  , ("camelot", .str "5A")
  , ("tempo", .int 120)
  , ("duration_seconds", .int 225)
  , ("popularity", .int 52)
  , ("energy", .int 81)
  , ("danceability", .int 70)
  , ("happiness", .int 60)
  , ("acousticness", .int 10)
  , ("instrumentalness", .int 0)
  , ("liveness", .int 15)
  , ("speechiness", .int 4)
  , ("loudness_db", .int (-7))
  ]

/-- The same payload as `sampleRaw` except that the loudness string
`"-7"` lacks the `" dB"` suffix. -/
def rawLoudnessNoSuffix : PyVal := .dict
  [ ("key", .int 5)
  , ("mode", .str "Minor")
  , ("camelot", .str "5A")
  , ("tempo", .int 120)
  , ("duration", .str "3:45")
  , ("popularity", .int 52)
  , ("energy", .int 81)
  , ("danceability", .int 70)
  , ("happiness", .int 60)
  , ("acousticness", .int 10)
  , ("instrumentalness", .int 0)
  , ("liveness", .int 15)
  , ("speechiness", .int 4)
  , ("loudness", .str "-7")
  ]

/-- The same payload as `sampleRaw` except that the loudness string
`"abc"` is not integer-parseable even after removing `" dB"`. -/
def rawLoudnessGarbage : PyVal := .dict
  [ ("key", .int 5)
  , ("mode", .str "Minor")
  , ("camelot", .str "5A")
  , ("tempo", .int 120)
  , ("duration", .str "3:45")
  , ("popularity", .int 52)
  , ("energy", .int 81)
  , ("danceability", .int 70)
  , ("happiness", .int 60)
  , ("acousticness", .int 10)
  , ("instrumentalness", .int 0)
  , ("liveness", .int 15)
  , ("speechiness", .int 4)
  , ("loudness", .str "abc")
  ]

/-- A store whose usage record is in the current month of the
examples, with quota fully consumed. -/
def storeAtLimit : Store :=
  { usage := { month := "2024-05", calls_made := 5000 }, tracks := [] }

/-- A store whose usage record is in the current month of the
examples, with no calls made yet. -/
def freshStore : Store :=
  { usage := { month := "2024-05", calls_made := 0 }, tracks := [] }

/-- A store whose usage record carries a stale month. -/
def staleStore : Store :=
  { usage := { month := "2024-01", calls_made := 7 }, tracks := [] }

/-- The fetch a given track triggers inside the loop. -/
def fetchOf (currentMonth : String) (http : String → HttpOutcome)
    (t : Track) (store : Store) : FetchResult :=
  get_audio_features_by_spotify_id currentMonth (http (trackIdOf t))
    (trackIdOf t) store

/-- The `StepInfo` of a track whose fetch returned `None` (quota
denial or request failure): skipped, nothing written, loop continues. -/
def skipInfo (t : Track) (fr : FetchResult) : StepInfo :=
  { track_id := trackIdOf t,
    msgs := [Msg.trackHeader t.name t.artist, Msg.analyzing] ++ fr.msgs,
    fetchCalled := true, normalizeCalled := false,
    wroteTrack := false, usageWrites := fr.usageWrites }

/-- The `StepInfo` of a track on which `normalize_features` raised. -/
def normFailInfo (t : Track) (fr : FetchResult) : StepInfo :=
  { track_id := trackIdOf t,
    msgs := [Msg.trackHeader t.name t.artist, Msg.analyzing] ++ fr.msgs,
    fetchCalled := true, normalizeCalled := true,
    wroteTrack := false, usageWrites := fr.usageWrites }

/-- A track whose record is already in `cachedStore`. -/
def cachedTrack : Track :=
  { uri := "spotify:track:abc", name := "Song", artist := "Artist" }

/-- A store already holding the record of `cachedTrack`. -/
def cachedStore : Store :=
  { usage := { month := "2024-05", calls_made := 3 },
    tracks := [("tracks/abc.json", .dict [("track_id", .str "abc")])] }

/-- An HTTP layer on which every request fails at transport level. -/
def anyHttp : String → HttpOutcome := fun _ => .connError

/-- A track absent from `freshStore`. -/
def uncachedTrack : Track :=
  { uri := "spotify:track:xyz", name := "SongX", artist := "ArtistX" }

/-- An HTTP layer answering every request with 200 and an empty JSON
object (a falsy Python value). -/
def emptyBodyHttp : String → HttpOutcome := fun _ => .response 200 (.dict [])

/-- A 200 body on which normalization raises: the duration string has
no colon, so the two-variable unpacking fails. -/
def badBody : PyVal := .dict [("duration", .str "345")]

/-- An HTTP layer answering every request with 200 and `badBody`. -/
def badHttp : String → HttpOutcome := fun _ => .response 200 badBody

/-- First track of the C4 run (normalization will raise on it). -/
def c4t1 : Track :=
  { uri := "spotify:track:bad1", name := "A", artist := "B" }

/-- Second track of the C4 run (never reached). -/
def c4t2 : Track :=
  { uri := "spotify:track:ok2", name := "C", artist := "D" }

/-- Claim C6: on any raw payload carrying all canonical source fields
with `duration = "3:45"` and `loudness = "-7 dB"`, `normalize_features`
succeeds with `duration_seconds = 225`, `loudness_db = -7`, and every
other canonical field copied through verbatim.  (Purity is structural:
the embedding of `normalize_features` is a plain function of its
argument; the source function performs no writes.) -/
theorem C6_normalize_roundtrip (d : PyVal)
    (v1 v2 v3 v4 v5 v6 v7 v8 v9 v10 v11 v12 : PyVal)
    (hdur : d.getItem "duration" = .ok (.str "3:45"))
    (hloud : d.getItem "loudness" = .ok (.str "-7 dB"))
    (hkey : d.getItem "key" = .ok v1)
    (hmode : d.getItem "mode" = .ok v2)
    (hcam : d.getItem "camelot" = .ok v3)
    (htempo : d.getItem "tempo" = .ok v4)
    (hpop : d.getItem "popularity" = .ok v5)
    (henergy : d.getItem "energy" = .ok v6)
    (hdance : d.getItem "danceability" = .ok v7)
    (hhap : d.getItem "happiness" = .ok v8)
    (hac : d.getItem "acousticness" = .ok v9)
    (hinstr : d.getItem "instrumentalness" = .ok v10)
    (hlive : d.getItem "liveness" = .ok v11)
    (hspeech : d.getItem "speechiness" = .ok v12) :
    normalize_features d = .ok (.dict
      [ ("key", v1), ("mode", v2), ("camelot", v3), ("tempo", v4)
      , ("duration_seconds", .int 225), ("popularity", v5), ("energy", v6)
      , ("danceability", v7), ("happiness", v8), ("acousticness", v9)
      , ("instrumentalness", v10), ("liveness", v11), ("speechiness", v12)
      , ("loudness_db", .int (-7)) ]) := by
  simp only [normalize_features, durationSecondsOf, loudnessDbOf, hdur,
    hloud, hkey, hmode, hcam, htempo, hpop, henergy, hdance, hhap, hac,
    hinstr, hlive, hspeech]
  rfl

/-- Witness for C6 at the concrete payload `sampleRaw`. -/
theorem C6_normalize_roundtrip_witness :
    normalize_features sampleRaw = .ok sampleNormalized :=
  C6_normalize_roundtrip sampleRaw (.int 5) (.str "Minor") (.str "5A")
    (.int 120) (.int 52) (.int 81) (.int 70) (.int 60) (.int 10) (.int 0)
    (.int 15) (.int 4) rfl rfl rfl rfl rfl rfl rfl rfl rfl rfl rfl rfl
    rfl rfl

/-- Claim C7 counterexample: on a payload whose loudness string `"-7"`
lacks the `" dB"` suffix, `normalize_features` does NOT fail — it
silently succeeds with `loudness_db = -7`, because the source strips
the suffix with `replace(" dB", "")`, which is a no-op when the
substring is absent, and `int("-7")` parses. -/
theorem C7_counterexample :
    normalize_features rawLoudnessNoSuffix = .ok sampleNormalized := by
  rfl

/-- Claim C7 (amended): `normalize_features` removes every occurrence
of `" dB"` from the loudness string and fails (with the `ValueError`
from `int()`) exactly when the remaining string is not
integer-parseable; absence of the suffix alone does not make it
fail. -/
theorem C7_loudness_unparseable (d : PyVal) (s : String) (n : Int)
    (hdur : durationSecondsOf d = .ok n)
    (hloud : d.getItem "loudness" = .ok (.str s))
    (hbad : pyInt (pyReplace s " dB" "") = none) :
    normalize_features d = .error .valueError := by
  simp only [normalize_features, loudnessDbOf, hdur, hloud, PyVal.asStr,
    hbad]

/-- Witness for the amended C7 at the concrete payload
`rawLoudnessGarbage`. -/
theorem C7_loudness_unparseable_witness :
    normalize_features rawLoudnessGarbage = .error .valueError :=
  C7_loudness_unparseable rawLoudnessGarbage "abc" 225 rfl rfl rfl

set_option maxHeartbeats 2000000 in
/-- Claim C10: a successful `normalize_features` run returns a dict
with exactly the fourteen canonical keys, in literal order; any key
outside that set — in particular any extra field of the raw payload —
is absent from the result. -/
theorem C10_canonical_keys (d out : PyVal)
    (h : normalize_features d = .ok out) :
    pyDictKeys out = canonicalFeatureKeys ∧
    ∀ k, k ∉ canonicalFeatureKeys → out.getItem k = .error (.keyError k) := by
  unfold normalize_features at h
  split at h
  · exact Except.noConfusion h
  split at h
  · exact Except.noConfusion h
  split at h
  · injection h with h
    subst h
    refine ⟨rfl, ?_⟩
    intro k hk
    simp only [canonicalFeatureKeys, List.mem_cons, List.not_mem_nil,
      or_false, not_or] at hk
    obtain ⟨n1, n2, n3, n4, n5, n6, n7, n8, n9, n10, n11, n12, n13, n14⟩ := hk
    have e1 : ("key" == k) = false := beq_eq_false_iff_ne.mpr (Ne.symm n1)
    have e2 : ("mode" == k) = false := beq_eq_false_iff_ne.mpr (Ne.symm n2)
    have e3 : ("camelot" == k) = false := beq_eq_false_iff_ne.mpr (Ne.symm n3)
    have e4 : ("tempo" == k) = false := beq_eq_false_iff_ne.mpr (Ne.symm n4)
    have e5 : ("duration_seconds" == k) = false :=
      beq_eq_false_iff_ne.mpr (Ne.symm n5)
    have e6 : ("popularity" == k) = false := beq_eq_false_iff_ne.mpr (Ne.symm n6)
    have e7 : ("energy" == k) = false := beq_eq_false_iff_ne.mpr (Ne.symm n7)
    have e8 : ("danceability" == k) = false :=
      beq_eq_false_iff_ne.mpr (Ne.symm n8)
    have e9 : ("happiness" == k) = false := beq_eq_false_iff_ne.mpr (Ne.symm n9)
    have e10 : ("acousticness" == k) = false :=
      beq_eq_false_iff_ne.mpr (Ne.symm n10)
    have e11 : ("instrumentalness" == k) = false :=
      beq_eq_false_iff_ne.mpr (Ne.symm n11)
    have e12 : ("liveness" == k) = false := beq_eq_false_iff_ne.mpr (Ne.symm n12)
    have e13 : ("speechiness" == k) = false :=
      beq_eq_false_iff_ne.mpr (Ne.symm n13)
    have e14 : ("loudness_db" == k) = false :=
      beq_eq_false_iff_ne.mpr (Ne.symm n14)
    simp [PyVal.getItem, List.find?, e1, e2, e3, e4, e5, e6, e7, e8, e9,
      e10, e11, e12, e13, e14]
  all_goals exact Except.noConfusion h

/-- Witness for C10 at the concrete payload `sampleRaw`, whose
`extra_field` entry is dropped. -/
theorem C10_canonical_keys_witness :
    pyDictKeys sampleNormalized = canonicalFeatureKeys ∧
    ∀ k, k ∉ canonicalFeatureKeys →
      sampleNormalized.getItem k = .error (.keyError k) :=
  C10_canonical_keys sampleRaw sampleNormalized rfl

/-- Claim C3: when the stored month is the current month and
`calls_made` has reached `MONTHLY_LIMIT`, the fetch shows the limit
message and returns `None` without issuing any HTTP request, and the
blob store (usage record included) is unchanged. -/
theorem C3_quota_exhausted (currentMonth track_id : String)
    (http : HttpOutcome) (store : Store)
    (hm : store.usage.month = currentMonth)
    (hq : MONTHLY_LIMIT ≤ store.usage.calls_made) :
    get_audio_features_by_spotify_id currentMonth http track_id store =
      { ret := none, store := store, requested := false, usageWrites := 0,
        msgs := [.limitReached] } := by
  unfold get_audio_features_by_spotify_id effectiveUsage
  simp [hm, hq]

/-- Witness for C3 at a concrete exhausted store. -/
theorem C3_quota_exhausted_witness :
    get_audio_features_by_spotify_id "2024-05" .connError "t0" storeAtLimit =
      { ret := none, store := storeAtLimit, requested := false,
        usageWrites := 0, msgs := [.limitReached] } :=
  C3_quota_exhausted "2024-05" "t0" .connError storeAtLimit rfl (by decide)

/-- Claim C2 counterexample: the claim treats every non-2xx status as
a transport failure after which the ledger must be unchanged, but
`raise_for_status` only raises for statuses in 400-599, so on a 304
response the code charges quota, persists the ledger, and returns the
parsed body. -/
theorem C2_counterexample :
    get_audio_features_by_spotify_id "2024-05"
        (.response 304 (.dict [("duration", .str "3:45")])) "t0" freshStore =
      { ret := some (.dict [("duration", .str "3:45")]),
        store := { usage := { month := "2024-05", calls_made := 1 },
                   tracks := [] },
        requested := true, usageWrites := 1, msgs := [] } := by
  rfl

/-- Claim C2 (amended): with quota available, a fetch increments
`calls_made` by exactly 1 and persists the ledger exactly once before
returning the parsed body exactly when `raise_for_status` does not
raise — that is, for any response status outside 400-599 (every 2xx,
but also e.g. 304); on a connection error, a timeout, or any 4xx/5xx
status it returns `None` and the ledger is not mutated. -/
theorem C2_ledger_increment (currentMonth track_id : String) (store : Store)
    (hq : (effectiveUsage currentMonth store.usage).calls_made <
      MONTHLY_LIMIT) :
    (∀ status body, raisesForStatus status = false →
      get_audio_features_by_spotify_id currentMonth
          (.response status body) track_id store =
        { ret := some body,
          store := { store with usage :=
            { month := (effectiveUsage currentMonth store.usage).month,
              calls_made :=
                (effectiveUsage currentMonth store.usage).calls_made + 1 } },
          requested := true, usageWrites := 1, msgs := [] }) ∧
    (∀ status body, raisesForStatus status = true →
      get_audio_features_by_spotify_id currentMonth
          (.response status body) track_id store =
        { ret := none, store := store, requested := true, usageWrites := 0,
          msgs := [.rapidApiError track_id (.httpError status)] }) ∧
    (get_audio_features_by_spotify_id currentMonth .connError track_id
        store =
      { ret := none, store := store, requested := true, usageWrites := 0,
        msgs := [.rapidApiError track_id .connectionError] }) ∧
    (get_audio_features_by_spotify_id currentMonth .timeout track_id
        store =
      { ret := none, store := store, requested := true, usageWrites := 0,
        msgs := [.rapidApiError track_id .timeout] }) := by
  have hq' : ¬ MONTHLY_LIMIT ≤
      (effectiveUsage currentMonth store.usage).calls_made :=
    not_le.mpr hq
  refine ⟨?_, ?_, ?_, ?_⟩
  · intro status body hs
    unfold get_audio_features_by_spotify_id
    simp [hq', hs]
  · intro status body hs
    unfold get_audio_features_by_spotify_id
    simp [hq', hs]
  · unfold get_audio_features_by_spotify_id
    simp [hq']
  · unfold get_audio_features_by_spotify_id
    simp [hq']

/-- Witness for the amended C2: a 200 response against the fresh
store charges and persists one call and returns the body. -/
theorem C2_ledger_increment_witness :
    get_audio_features_by_spotify_id "2024-05"
        (.response 200 (.dict [("duration", .str "3:45")])) "t0"
        freshStore =
      { ret := some (.dict [("duration", .str "3:45")]),
        store := { usage := { month := "2024-05", calls_made := 1 },
                   tracks := [] },
        requested := true, usageWrites := 1, msgs := [] } :=
  (C2_ledger_increment "2024-05" "t0" freshStore (by decide)).1 200
    (.dict [("duration", .str "3:45")]) rfl

/-- Claim C5: when the stored usage month differs from the current
month, the record actually used is the in-memory reset
`{month: current_month, calls_made: 0}` and nothing is written by the
read; every failing fetch leaves the stale stored record untouched;
a successful fetch persists `{month: current_month, calls_made: 1}`. -/
theorem C5_stale_month_reset (currentMonth track_id : String)
    (store : Store) (hm : store.usage.month ≠ currentMonth) :
    (effectiveUsage currentMonth store.usage =
      { month := currentMonth, calls_made := 0 }) ∧
    (∀ status body, raisesForStatus status = true →
      get_audio_features_by_spotify_id currentMonth
          (.response status body) track_id store =
        { ret := none, store := store, requested := true, usageWrites := 0,
          msgs := [.rapidApiError track_id (.httpError status)] }) ∧
    (get_audio_features_by_spotify_id currentMonth .connError track_id
        store =
      { ret := none, store := store, requested := true, usageWrites := 0,
        msgs := [.rapidApiError track_id .connectionError] }) ∧
    (get_audio_features_by_spotify_id currentMonth .timeout track_id
        store =
      { ret := none, store := store, requested := true, usageWrites := 0,
        msgs := [.rapidApiError track_id .timeout] }) ∧
    (∀ status body, raisesForStatus status = false →
      get_audio_features_by_spotify_id currentMonth
          (.response status body) track_id store =
        { ret := some body,
          store := { store with usage :=
            { month := currentMonth, calls_made := 1 } },
          requested := true, usageWrites := 1, msgs := [] }) := by
  have heff : effectiveUsage currentMonth store.usage =
      { month := currentMonth, calls_made := 0 } := by
    unfold effectiveUsage
    simp [bne_iff_ne, hm]
  have hq' : ¬ MONTHLY_LIMIT ≤
      (effectiveUsage currentMonth store.usage).calls_made := by
    rw [heff]
    simp [MONTHLY_LIMIT]
  refine ⟨heff, ?_, ?_, ?_, ?_⟩
  · intro status body hs
    unfold get_audio_features_by_spotify_id
    simp [hq', hs]
  · unfold get_audio_features_by_spotify_id
    simp [hq']
  · unfold get_audio_features_by_spotify_id
    simp [hq']
  · intro status body hs
    unfold get_audio_features_by_spotify_id
    simp [hq', hs, heff, MONTHLY_LIMIT]

/-- Witness for C5: a successful fetch against the stale store
persists the reset-and-incremented record for the new month. -/
theorem C5_stale_month_reset_witness :
    get_audio_features_by_spotify_id "2024-02"
        (.response 200 (.dict [("duration", .str "3:45")])) "t0"
        staleStore =
      { ret := some (.dict [("duration", .str "3:45")]),
        store := { usage := { month := "2024-02", calls_made := 1 },
                   tracks := [] },
        requested := true, usageWrites := 1, msgs := [] } :=
  (C5_stale_month_reset "2024-02" "t0" staleStore
    (by decide)).2.2.2.2 200 (.dict [("duration", .str "3:45")]) rfl

/-- Claim C8 counterexample: the source has one catch-all
`except requests.exceptions.RequestException` branch and no error
types of its own, so a 429 response is handled exactly like any other
HTTP failure: the generic error message is shown and the caller
receives the plain `None` used for every failure — no distinguishable
rate-limited value exists (here compared with a 500 response). -/
theorem C8_counterexample :
    get_audio_features_by_spotify_id "2024-05" (.response 429 .null)
        "t0" freshStore =
      { ret := none, store := freshStore, requested := true,
        usageWrites := 0,
        msgs := [.rapidApiError "t0" (.httpError 429)] } ∧
    get_audio_features_by_spotify_id "2024-05" (.response 500 .null)
        "t0" freshStore =
      { ret := none, store := freshStore, requested := true,
        usageWrites := 0,
        msgs := [.rapidApiError "t0" (.httpError 500)] } ∧
    (get_audio_features_by_spotify_id "2024-05" (.response 429 .null)
        "t0" freshStore).ret =
      (get_audio_features_by_spotify_id "2024-05" (.response 500 .null)
        "t0" freshStore).ret :=
  ⟨rfl, rfl, rfl⟩

/-- Claim C8 (amended): a 429 response takes the same single generic
handler as every 4xx/5xx failure — the generic message and a `None`
return — and the value returned to the caller for a 429 is identical
to that for any other failing status; no rate-limited-specific error
subtype exists in the code. -/
theorem C8_rate_limited_generic (currentMonth track_id : String)
    (store : Store)
    (hq : (effectiveUsage currentMonth store.usage).calls_made <
      MONTHLY_LIMIT) :
    (∀ body, get_audio_features_by_spotify_id currentMonth
        (.response 429 body) track_id store =
      { ret := none, store := store, requested := true, usageWrites := 0,
        msgs := [.rapidApiError track_id (.httpError 429)] }) ∧
    (∀ status body status' body',
      raisesForStatus status = true → raisesForStatus status' = true →
      (get_audio_features_by_spotify_id currentMonth
        (.response status body) track_id store).ret =
      (get_audio_features_by_spotify_id currentMonth
        (.response status' body') track_id store).ret) := by
  have hq' : ¬ MONTHLY_LIMIT ≤
      (effectiveUsage currentMonth store.usage).calls_made :=
    not_le.mpr hq
  refine ⟨?_, ?_⟩
  · intro body
    unfold get_audio_features_by_spotify_id
    simp [hq']
    rfl
  · intro status body status' body' hs hs'
    unfold get_audio_features_by_spotify_id
    simp [hq', hs, hs']

/-- Witness for the amended C8 at the fresh store. -/
theorem C8_rate_limited_generic_witness :
    get_audio_features_by_spotify_id "2024-05" (.response 429 .null)
        "t1" freshStore =
      { ret := none, store := freshStore, requested := true,
        usageWrites := 0,
        msgs := [.rapidApiError "t1" (.httpError 429)] } :=
  (C8_rate_limited_generic "2024-05" "t1" freshStore (by decide)).1 .null

/-- Claim C1: a track whose cache blob already exists is reported as
already processed and skipped — no fetch (hence no ledger read or
write) and no normalization happen, and the store is untouched;
consequently a run over a list all of whose tracks are cached (a warm
cache, e.g. any second run over an already-enriched list) leaves the
blob store exactly as it was and writes nothing. -/
theorem C1_already_cached (currentMonth : String)
    (http : String → HttpOutcome) :
    (∀ t store, blobExists store (blobNameOf t) = true →
      processTrack currentMonth http t store =
        (store, alreadyCachedInfo t, none)) ∧
    (∀ tracks store,
      (∀ t ∈ tracks, blobExists store (blobNameOf t) = true) →
      process currentMonth http tracks store =
        (store, tracks.map alreadyCachedInfo, none)) := by
  have hstep : ∀ t store, blobExists store (blobNameOf t) = true →
      processTrack currentMonth http t store =
        (store, alreadyCachedInfo t, none) := by
    intro t store h
    unfold processTrack
    simp [h, alreadyCachedInfo]
  refine ⟨hstep, ?_⟩
  intro tracks
  induction tracks with
  | nil => intro store _; rfl
  | cons t ts ih =>
    intro store hall
    have h1 := hall t (List.mem_cons_self t ts)
    have hrest : ∀ t' ∈ ts, blobExists store (blobNameOf t') = true :=
      fun t' ht' => hall t' (List.mem_cons_of_mem t ht')
    simp only [process, hstep t store h1, ih store hrest, List.map_cons]

/-- Witness for C1: a one-track warm-cache run changes nothing. -/
theorem C1_already_cached_witness :
    process "2024-05" anyHttp [cachedTrack] cachedStore =
      (cachedStore, [alreadyCachedInfo cachedTrack], none) :=
  (C1_already_cached "2024-05" anyHttp).2 [cachedTrack] cachedStore
    (by decide)

/-- Claim C4 counterexample: on a batch of two uncached tracks whose
first fetch succeeds with a payload `normalize_features` rejects, the
run does not emit a normalization-failed outcome and continue — the
`ValueError` escapes (third component), only one per-track record
exists (the second track is never processed), and the batch is
aborted; quota for the first track was nevertheless charged. -/
theorem C4_counterexample :
    process "2024-05" badHttp [c4t1, c4t2] freshStore =
      ({ usage := { month := "2024-05", calls_made := 1 }, tracks := [] },
       [ { track_id := "bad1",
           msgs := [.trackHeader "A" "B", .analyzing],
           fetchCalled := true, normalizeCalled := true,
           wroteTrack := false, usageWrites := 1 } ],
       some .valueError) := by
  rfl

/-- Claim C4 (amended): per-track errors absorbed inside the fetch
helper (quota denial, request failure) make the pipeline skip the
track and continue with the rest, but a normalization failure is not
caught anywhere: the exception escapes the loop and aborts the batch —
no TrackRecord is written for the failing track, the store keeps only
the fetch's ledger write, and the remaining tracks are not
processed. -/
theorem C4_normalization_error_escapes (currentMonth : String)
    (http : String → HttpOutcome) (t : Track) (ts : List Track)
    (store : Store)
    (hnc : blobExists store (blobNameOf t) = false) :
    (∀ s2 infos err, (fetchOf currentMonth http t store).ret = none →
      process currentMonth http ts
          (fetchOf currentMonth http t store).store = (s2, infos, err) →
      process currentMonth http (t :: ts) store =
        (s2, skipInfo t (fetchOf currentMonth http t store) :: infos,
         err)) ∧
    (∀ a e, (fetchOf currentMonth http t store).ret = some a →
      a.isTruthy = true → normalize_features a = .error e →
      process currentMonth http (t :: ts) store =
        ((fetchOf currentMonth http t store).store,
         [normFailInfo t (fetchOf currentMonth http t store)], some e)) := by
  refine ⟨?_, ?_⟩
  · intro s2 infos err hret hrest
    simp only [fetchOf] at hret hrest
    simp only [process, processTrack, hnc, hret, skipInfo, fetchOf]
    simp [hrest]
  · intro a e hret htru hnorm
    simp only [fetchOf] at hret
    simp only [process, processTrack, hnc, hret, htru, hnorm,
      normFailInfo, fetchOf]
    simp

/-- Witness for the amended C4: the concrete two-track run of
`C4_counterexample`, reached through the amended theorem. -/
theorem C4_normalization_error_escapes_witness :
    process "2024-05" badHttp [c4t1, c4t2] freshStore =
      ((fetchOf "2024-05" badHttp c4t1 freshStore).store,
       [normFailInfo c4t1 (fetchOf "2024-05" badHttp c4t1 freshStore)],
       some .valueError) :=
  (C4_normalization_error_escapes "2024-05" badHttp c4t1 [c4t2]
    freshStore (by decide)).2 badBody .valueError rfl rfl rfl

/-- Claim C9: when the fetch succeeds (here a 200) so quota is charged
and persisted, but the parsed body is falsy (e.g. an empty JSON
object), the loop writes no TrackRecord, emits no failure message, and
calls no normalizer — the track is silently skipped at the cost of one
quota call. -/
theorem C9_falsy_body_silent (currentMonth : String)
    (http : String → HttpOutcome) (t : Track) (store : Store)
    (status : Nat) (body : PyVal)
    (hnc : blobExists store (blobNameOf t) = false)
    (hhttp : http (trackIdOf t) = .response status body)
    (hok : raisesForStatus status = false)
    (hfalsy : body.isTruthy = false)
    (hq : (effectiveUsage currentMonth store.usage).calls_made <
      MONTHLY_LIMIT) :
    processTrack currentMonth http t store =
      ({ store with usage :=
          { month := (effectiveUsage currentMonth store.usage).month,
            calls_made :=
              (effectiveUsage currentMonth store.usage).calls_made + 1 } },
       { track_id := trackIdOf t,
         msgs := [Msg.trackHeader t.name t.artist, Msg.analyzing],
         fetchCalled := true, normalizeCalled := false,
         wroteTrack := false, usageWrites := 1 }, none) := by
  have hq' : ¬ MONTHLY_LIMIT ≤
      (effectiveUsage currentMonth store.usage).calls_made :=
    not_le.mpr hq
  unfold processTrack get_audio_features_by_spotify_id
  simp [hnc, hhttp, hq', hok, hfalsy]

/-- Witness for C9: a 200 response with body `{}` against the fresh
store consumes one quota call and silently skips the track. -/
theorem C9_falsy_body_silent_witness :
    processTrack "2024-05" emptyBodyHttp uncachedTrack freshStore =
      ({ usage := { month := "2024-05", calls_made := 1 }, tracks := [] },
       { track_id := "xyz",
         msgs := [.trackHeader "SongX" "ArtistX", .analyzing],
         fetchCalled := true, normalizeCalled := false,
         wroteTrack := false, usageWrites := 1 }, none) :=
  C9_falsy_body_silent "2024-05" emptyBodyHttp uncachedTrack freshStore
    200 (.dict []) (by decide) rfl rfl rfl (by decide)
